import Mathlib

/-!
Verification development for the Dermavision_AI repository.

Part 1 embeds `app/api/analyze/route.ts` (the report-generation endpoint
with its model-fallback loop) as pure Lean functions; the network is
abstracted as an oracle assigning each candidate model one attempt
outcome.  Part 2 embeds the wizard logic of `app/page.tsx` as a step
function on an explicit application state, with side effects reified as
an effect list.  JavaScript truthiness of the optional string / array
fields is modelled explicitly.
-/

namespace Dermavision

/-- JavaScript truthiness of an optional string field (`undefined`/`null`
and `""` are falsy). -/
def strTruthy : Option String → Bool
  | none => false
  | some s => s ≠ ""

/-- JavaScript `a || d` for an optional string `a` and a string default
`d`: the default is taken when `a` is absent or empty. -/
def jsOrD (a : Option String) (d : String) : String :=
  match a with
  | none => d
  | some s => if s = "" then d else s

/-- Auxiliary accumulator recursion for `jsSplit`. -/
def splitCharAux (sep : Char) : List Char → List Char → List String
  | [], acc => [String.mk acc.reverse]
  | c :: cs, acc =>
      if c = sep then String.mk acc.reverse :: splitCharAux sep cs []
      else splitCharAux sep cs (c :: acc)

/-- JavaScript `s.split(sep)` for a single-character separator: splits
at every occurrence, keeps empty pieces, and yields `[""]` on the empty
string. -/
def jsSplit (sep : Char) (s : String) : List String :=
  splitCharAux sep s.data []

/-- Drop leading whitespace characters. -/
def dropWhileSpace : List Char → List Char
  | [] => []
  | c :: cs => if c.isWhitespace then dropWhileSpace cs else c :: cs

/-- JavaScript `s.trim()` (restricted to the ASCII whitespace occurring
in this code base): strip leading and trailing whitespace. -/
def jsTrim (s : String) : String :=
  String.mk (dropWhileSpace (dropWhileSpace s.data.reverse).reverse)

/-! ## Embedding of `app/api/analyze/route.ts` -/

/-- `const MODELS_TO_TRY = [...]` (route.ts lines 7-12). -/
def MODELS_TO_TRY : List String :=
  ["gemini-2.0-flash", "gemini-2.0-pro", "gemini-1.5-flash", "gemini-1.5-pro"]

/-- The classification result carried in the request body:
`visionAnalysis: { label, confidences[] } | null`. -/
structure VisionResult where
  label : String
  confidences : List (String × ℚ)
  deriving Repr, DecidableEq

/-- The JSON `symptoms` field of the request body as the route can see
it: absent/null, a string, or an array of strings (the client sends an
array). -/
inductive SymptomsField where
  | absent
  | str (s : String)
  | arr (xs : List String)
  deriving Repr, DecidableEq

/-- JavaScript truthiness of the `symptoms` field: `undefined`/`null`
and `""` are falsy; every array, including `[]`, is truthy. -/
def SymptomsField.truthy : SymptomsField → Bool
  | .absent => false
  | .str s => s ≠ ""
  | .arr _ => true

/-- JavaScript string interpolation of the `symptoms` field: an array
interpolates as its elements joined by `","`. -/
def SymptomsField.interp : SymptomsField → String
  | .absent => "undefined"
  | .str s => s
  | .arr xs => String.intercalate "," xs

/-- `${symptoms || "not provided"}` (route.ts line 56). -/
def symptomsText (f : SymptomsField) : String :=
  if f.truthy then f.interp else "not provided"

/-- `${visionAnalysis?.label || "unknown"}` (route.ts line 55). -/
def labelText (v : Option VisionResult) : String :=
  match v with
  | none => "unknown"
  | some va => if va.label = "" then "unknown" else va.label

/-- The prompt template of route.ts lines 43-57: a template literal
(leading newline, two trailing spaces on several lines, four spaces of
indentation before the closing backtick) with the two interpolations,
then `.trim()`. -/
def promptText (label symptoms : String) : String :=
  jsTrim ("\nYou are a dermatology assistant AI.  \nAnalyze this skin image and provide:\n\n1. **Likely condition(s)**  \n2. **Risk level**  \n3. **Whether the user should see a doctor**  \n4. **Possible causes**  \n5. **Non-medical general advice**\n\nDO NOT give medical diagnosis. Give safe recommendations.\n\nVISION AI result: "
    ++ label ++ "\nUser symptoms: " ++ symptoms ++ "\n    ")

/-- `image.split(";")[0].split(":")[1] || "image/jpeg"` (route.ts
line 39). -/
def mimeTypeOf (image : String) : String :=
  jsOrD ((jsSplit ':' ((jsSplit ';' image).headD "")).get? 1) "image/jpeg"

/-- `image.includes(",") ? image.split(",")[1] : image` (route.ts
line 40). -/
def base64DataOf (image : String) : String :=
  if 2 ≤ (jsSplit ',' image).length then ((jsSplit ',' image).get? 1).getD ""
  else image

/-- `inline_data` object of the request payload (route.ts lines 65-68). -/
structure InlineData where
  mime_type : String
  data : String
  deriving Repr, DecidableEq

/-- One element of `parts` in the request payload. -/
inductive Part where
  | text (t : String)
  | inline (d : InlineData)
  deriving Repr, DecidableEq

/-- One element of `contents` in the request payload. -/
structure Content where
  parts : List Part
  deriving Repr, DecidableEq

/-- The JSON payload sent to every candidate model (route.ts
lines 59-73). -/
structure GeminiPayload where
  contents : List Content
  deriving Repr, DecidableEq

/-- The parsed JSON request body of the POST endpoint
(`const { image, symptoms, visionAnalysis } = body`, route.ts line 29). -/
structure RouteRequest where
  image : Option String
  symptoms : SymptomsField
  visionAnalysis : Option VisionResult
  deriving Repr, DecidableEq

/-- The payload built once per request, before the fallback loop
(route.ts lines 43-73).  `image` is the data-URI string (the route only
reaches this point when the image field is truthy). -/
def mkPayload (image : String) (req : RouteRequest) : GeminiPayload :=
  { contents := [⟨[.text (promptText (labelText req.visionAnalysis)
                      (symptomsText req.symptoms)),
                  .inline ⟨mimeTypeOf image, base64DataOf image⟩]⟩] }

/-- The outcome of the single network attempt against one candidate
model, as the loop body of route.ts lines 83-111 can observe it:
the fetch/json threw (`catch`), or the response was non-ok with an
optional `json.error?.message`, or the response was ok with the
optionally extractable `json.candidates?.[0]?.content?.parts?.[0]?.text`. -/
inductive AttemptOutcome where
  | transportError (msg : String)
  | backendError (msg : Option String)
  | okResponse (text : Option String)
  deriving Repr, DecidableEq

/-- What one iteration of the loop does with its outcome: either an
early `return NextResponse.json({ result: text })`, or a new value for
`lastError`. -/
inductive AttemptResult where
  | success (text : String)
  | failure (msg : String)
  deriving Repr, DecidableEq

/-- Loop body of route.ts lines 83-111: a truthy extracted text returns
it; an ok response without truthy text records `"Model returned no
text"`; a non-ok response records `json.error?.message || "Unknown API
error"`; a thrown transport error records `err.message`. -/
def evalAttempt : AttemptOutcome → AttemptResult
  | .transportError m => .failure m
  | .backendError m => .failure (jsOrD m "Unknown API error")
  | .okResponse t => if strTruthy t then .success (t.getD "") else .failure "Model returned no text"

/-- The endpoint response: `{ result }` with HTTP 200, or `{ error }`
with the given HTTP status. -/
inductive RouteResult where
  | ok (result : String)
  | error (status : Nat) (msg : String)
  deriving Repr, DecidableEq

/-- The fallback loop of route.ts lines 78-118, over candidates paired
with their attempt outcomes, threading `lastError`.  Returns the
response together with the trace of network attempts actually issued
(model name and payload of each `fetch`). -/
def tryModels (payload : GeminiPayload) :
    List (String × AttemptOutcome) → String → RouteResult × List (String × GeminiPayload)
  | [], lastError =>
      (.error 503 ("All Gemini models failed. Last error: " ++ lastError), [])
  | (name, out) :: rest, _lastError =>
      match evalAttempt out with
      | .success t => (.ok t, [(name, payload)])
      | .failure e =>
          let r := tryModels payload rest e
          (r.1, (name, payload) :: r.2)

/-- The process environment as read at route.ts lines 18-19. -/
structure Env where
  GEMINI_API_KEY : Option String
  GOOGLE_GEMINI_API_KEY : Option String
  deriving Repr, DecidableEq

/-- `process.env.GEMINI_API_KEY || process.env.GOOGLE_GEMINI_API_KEY`
(route.ts lines 18-19). -/
def apiKey (env : Env) : Option String :=
  if strTruthy env.GEMINI_API_KEY then env.GEMINI_API_KEY
  else env.GOOGLE_GEMINI_API_KEY

/-- The POST handler of route.ts (lines 14-126), with the network
abstracted by `outcomes`: the outcome the i-th candidate model would
produce if attempted.  Returns the response and the trace of attempts
issued.  (The outer try/catch and the parsing of the raw body are
elided: the request arrives as an already-parsed record.) -/
def POST (env : Env) (req : RouteRequest) (outcomes : List AttemptOutcome) :
    RouteResult × List (String × GeminiPayload) :=
  if ¬ strTruthy (apiKey env) then
    (.error 500 "Missing GEMINI_API_KEY", [])
  else if ¬ strTruthy req.image then
    (.error 400 "Image not provided", [])
  else
    let payload := mkPayload (req.image.getD "") req
    tryModels payload (MODELS_TO_TRY.zip outcomes) "Unknown error"

/-! ## Embedding of `app/page.tsx` (session wizard) -/

/-- `type Screen` (page.tsx line 32). -/
inductive Screen where
  | landing
  | scan
  | triage
  | results
  | information
  | about
  deriving Repr, DecidableEq

/-- `interface ScanSession` (page.tsx lines 34-42).  The optional
fields `vision_result`, `llm_report` and `error` are `none` when unset. -/
structure ScanSession where
  symptoms : List String
  risk_score : Nat
  image_url : Option String
  vision_result : Option VisionResult
  llm_report : Option String
  error : Option String
  deriving Repr, DecidableEq

/-- The initial session (page.tsx lines 161-166). -/
def initialSession : ScanSession :=
  { symptoms := [], risk_score := 0, image_url := none,
    vision_result := none, llm_report := none, error := none }

/-- The component state of `DermaVisionApp` that the wizard logic
touches (page.tsx lines 154-170).  `pendingVision` records whether a
classification call issued by `analyzeWithVisionAI` is still
outstanding; nothing in the source ever cancels such a call, so a reset
leaves it pending.  (Purely presentational state — language, the
transition flag — is elided.) -/
structure AppState where
  currentScreen : Screen
  isAnalyzing : Bool
  isVisionLoading : Bool
  scanSession : ScanSession
  capturedImage : Option String
  symptomsInput : String
  pendingVision : Bool
  deriving Repr, DecidableEq

/-- The initial component state. -/
def initialState : AppState :=
  { currentScreen := .landing, isAnalyzing := false, isVisionLoading := false,
    scanSession := initialSession, capturedImage := none,
    symptomsInput := "", pendingVision := false }

/-- The body POSTed to `/api/analyze` by `proceedToResults` (page.tsx
lines 274-279). -/
structure ReportBody where
  image : Option String
  symptoms : List String
  visionAnalysis : Option VisionResult
  deriving Repr, DecidableEq

/-- Reified side effects of a wizard step: an `alert`, the start of the
background classification call, and the report-generation request
scheduled `delayMs` milliseconds after submission. -/
inductive Effect where
  | alertMsg (msg : String)
  | startVision (image : String)
  | issueReport (delayMs : Nat) (body : ReportBody)
  deriving Repr, DecidableEq

/-- What the report-generation fetch inside the `setTimeout` callback
of `proceedToResults` (page.tsx lines 269-293) can come back with: the
fetch threw, the response was non-ok (the callback then throws
`API Error: <status>`), or the response was ok with a parsed body whose
`result` field may be absent or empty. -/
inductive ReportOutcome where
  | networkError (msg : String)
  | httpError (status : Nat)
  | okBody (result : Option String)
  deriving Repr, DecidableEq

/-- Events driving the wizard: user actions together with resolutions
of the two background calls. -/
inductive Event where
  | startScan
  | capture (image : String)
  | visionResolve (r : VisionResult)
  | visionFail
  | editSymptoms (text : String)
  | submit
  | reportResolve (o : ReportOutcome)
  | reset
  deriving Repr, DecidableEq

/-- `symptomsInput.split(",").map((s) => s.trim()).filter((s) => s)`
(page.tsx line 256). -/
def parseSymptoms (input : String) : List String :=
  ((jsSplit ',' input).map jsTrim).filter (fun s => s ≠ "")

/-- `performAnalysis` (page.tsx lines 212-221): store the image, start
the classification call without awaiting it (its synchronous prefix
sets `isVisionLoading`), navigate to the triage screen. -/
def performAnalysis (image : String) (st : AppState) : AppState × List Effect :=
  ({ st with
      capturedImage := some image,
      scanSession := { st.scanSession with image_url := some image },
      isVisionLoading := true,
      pendingVision := true,
      currentScreen := .triage },
   [.startVision image])

/-- Resolution of the classification call (page.tsx lines 193-208,
success path): `setScanSession((prev) => ({ ...prev, vision_result:
result.data[0] }))`, then the `finally` clears the loading flag.  The
write is applied to whatever the current session is — the source checks
no generation stamp. -/
def visionResolve (r : VisionResult) (st : AppState) : AppState × List Effect :=
  ({ st with
      scanSession := { st.scanSession with vision_result := some r },
      isVisionLoading := false,
      pendingVision := false },
   [])

/-- Failure of the classification call (page.tsx lines 203-208): alert,
clear the loading flag, leave the session untouched. -/
def visionFail (st : AppState) : AppState × List Effect :=
  ({ st with isVisionLoading := false, pendingVision := false },
   [.alertMsg "AI Model connection failed. Continuing with basic analysis."])

/-- `proceedToResults` (page.tsx lines 255-294): parse the symptoms
input; an empty parse alerts and changes nothing; otherwise write the
symptom list, navigate to the results screen immediately, and schedule
the report request 500 ms later with the captured image, the parsed
symptoms, and the classification result currently in the session. -/
def proceedToResults (st : AppState) : AppState × List Effect :=
  let symptoms := parseSymptoms st.symptomsInput
  if symptoms = [] then
    (st, [.alertMsg "Please enter at least one symptom"])
  else
    ({ st with
        scanSession := { st.scanSession with symptoms := symptoms },
        currentScreen := .results },
     [.issueReport 500
        { image := st.capturedImage, symptoms := symptoms,
          visionAnalysis := st.scanSession.vision_result }])

/-- Resolution of the report-generation request (page.tsx lines
270-292): an ok response with a truthy `result` writes `llm_report`; an
ok response without one writes nothing; a non-ok response or a thrown
fetch lands in the catch block, which writes only the `error` field. -/
def reportResolve (o : ReportOutcome) (st : AppState) : AppState × List Effect :=
  match o with
  | .okBody r =>
      if strTruthy r then
        ({ st with scanSession := { st.scanSession with llm_report := some (r.getD "") } }, [])
      else (st, [])
  | .httpError status =>
      ({ st with scanSession :=
          { st.scanSession with error := some ("API Error: " ++ toString status) } }, [])
  | .networkError m =>
      ({ st with scanSession := { st.scanSession with error := some m } }, [])

/-- `resetSession` (page.tsx lines 296-303): replace the session by a
fresh one, clear the input, image and flags, navigate to the landing
screen.  The outstanding classification call, if any, is not
cancelled. -/
def resetSession (st : AppState) : AppState × List Effect :=
  ({ st with
      scanSession := initialSession,
      symptomsInput := "",
      capturedImage := none,
      isAnalyzing := false,
      isVisionLoading := false,
      currentScreen := .landing },
   [])

/-- One wizard step: dispatch an event to the corresponding handler of
page.tsx. -/
def step (st : AppState) : Event → AppState × List Effect
  | .startScan => ({ st with currentScreen := .scan }, [])
  | .capture image => performAnalysis image st
  | .visionResolve r => visionResolve r st
  | .visionFail => visionFail st
  | .editSymptoms text => ({ st with symptomsInput := text }, [])
  | .submit => proceedToResults st
  | .reportResolve o => reportResolve o st
  | .reset => resetSession st

/-- Run a sequence of events from a state, discarding effects. -/
def run (st : AppState) : List Event → AppState
  | [] => st
  | e :: es => run (step st e).1 es

/-! ## Theorems about the report-generation endpoint -/

/-- A concrete payload for instantiating the loop theorems. -/
def payloadEx : GeminiPayload :=
  ⟨[⟨[Part.text "prompt", Part.inline ⟨"image/jpeg", "AAAA"⟩]⟩]⟩

/-- Helper: every attempt recorded in the trace of the fallback loop
carries the same payload. -/
theorem tryModels_trace_payload (payload : GeminiPayload)
    (cs : List (String × AttemptOutcome)) (lastError : String) :
    ∀ a ∈ (tryModels payload cs lastError).2, a.2 = payload := by
  induction cs generalizing lastError with
  | nil => simp [tryModels]
  | cons c rest ih =>
      obtain ⟨n, o⟩ := c
      intro a ha
      cases h : evalAttempt o with
      | success t =>
          simp [tryModels, h] at ha
          simp [ha]
      | failure e =>
          simp [tryModels, h] at ha
          rcases ha with h1 | h2
          · simp [h1]
          · exact ih e a h2

/-- Claim C1: for a candidate list split as `pre ++ (name, out) :: post`
where every candidate in `pre` fails and `(name, out)` succeeds with
text `t`, the fallback loop returns `t` with HTTP 200 and its attempt
trace is exactly the candidates of `pre` followed by `name`, in list
order — so at most `pre.length + 1` network attempts are issued and no
candidate of `post` is ever attempted. -/
theorem dispatcher_first_success_wins (payload : GeminiPayload)
    (pre post : List (String × AttemptOutcome)) (name : String)
    (out : AttemptOutcome) (lastError t : String)
    (hpre : ∀ p ∈ pre, ∃ m, evalAttempt p.2 = AttemptResult.failure m)
    (hout : evalAttempt out = AttemptResult.success t) :
    tryModels payload (pre ++ (name, out) :: post) lastError
      = (RouteResult.ok t,
         (pre.map Prod.fst ++ [name]).map fun n => (n, payload)) := by
  induction pre generalizing lastError with
  | nil => simp [tryModels, hout]
  | cons p ps ih =>
      obtain ⟨n0, o0⟩ := p
      obtain ⟨m, hm⟩ := hpre (n0, o0) (List.mem_cons_self _ _)
      have hps : ∀ q ∈ ps, ∃ m, evalAttempt q.2 = AttemptResult.failure m :=
        fun q hq => hpre q (List.mem_cons_of_mem _ hq)
      simp [tryModels, hm, ih m hps]

/-- Witness for C1 at a concrete three-candidate list whose first
candidate fails with a transport error and whose second succeeds. -/
theorem dispatcher_first_success_wins_witness :
    tryModels payloadEx
        [("gemini-2.0-flash", AttemptOutcome.transportError "fetch failed"),
         ("gemini-2.0-pro", AttemptOutcome.okResponse (some "report text")),
         ("gemini-1.5-flash", AttemptOutcome.okResponse (some "unused"))]
        "Unknown error"
      = (RouteResult.ok "report text",
         [("gemini-2.0-flash", payloadEx), ("gemini-2.0-pro", payloadEx)]) := by
  have h := dispatcher_first_success_wins payloadEx
      [("gemini-2.0-flash", AttemptOutcome.transportError "fetch failed")]
      [("gemini-1.5-flash", AttemptOutcome.okResponse (some "unused"))]
      "gemini-2.0-pro" (AttemptOutcome.okResponse (some "report text"))
      "Unknown error" "report text"
      (by intro p hp
          rw [List.mem_singleton] at hp
          subst hp
          exact ⟨"fetch failed", by decide⟩)
      (by decide)
  simpa using h

/-- Claim C3: when every candidate fails, the loop answers HTTP 503
with the message `All Gemini models failed. Last error: ` followed by
the failure message recorded for the last candidate in the list (not an
aggregation of all failures), after attempting every candidate in
order. -/
theorem dispatcher_all_fail_last_error (payload : GeminiPayload)
    (init : List (String × AttemptOutcome)) (lastC : String × AttemptOutcome)
    (lastError m : String)
    (hfail : ∀ p ∈ init, ∃ e, evalAttempt p.2 = AttemptResult.failure e)
    (hlast : evalAttempt lastC.2 = AttemptResult.failure m) :
    tryModels payload (init ++ [lastC]) lastError
      = (RouteResult.error 503 ("All Gemini models failed. Last error: " ++ m),
         (init ++ [lastC]).map fun c => (c.1, payload)) := by
  induction init generalizing lastError with
  | nil =>
      obtain ⟨n, o⟩ := lastC
      simp only at hlast
      simp [tryModels, hlast]
  | cons p ps ih =>
      obtain ⟨n0, o0⟩ := p
      obtain ⟨e, he⟩ := hfail (n0, o0) (List.mem_cons_self _ _)
      have hps : ∀ q ∈ ps, ∃ e, evalAttempt q.2 = AttemptResult.failure e :=
        fun q hq => hfail q (List.mem_cons_of_mem _ hq)
      simp [tryModels, he, ih e hps]

/-- Witness for C3 at a concrete list whose two candidates fail with a
backend error carrying no message and then a transport error. -/
theorem dispatcher_all_fail_last_error_witness :
    tryModels payloadEx
        [("gemini-2.0-flash", AttemptOutcome.backendError none),
         ("gemini-2.0-pro", AttemptOutcome.transportError "socket hang up")]
        "Unknown error"
      = (RouteResult.error 503
           "All Gemini models failed. Last error: socket hang up",
         [("gemini-2.0-flash", payloadEx), ("gemini-2.0-pro", payloadEx)]) := by
  have h := dispatcher_all_fail_last_error payloadEx
      [("gemini-2.0-flash", AttemptOutcome.backendError none)]
      ("gemini-2.0-pro", AttemptOutcome.transportError "socket hang up")
      "Unknown error" "socket hang up"
      (by intro p hp
          rw [List.mem_singleton] at hp
          subst hp
          exact ⟨"Unknown API error", by decide⟩)
      (by decide)
  simpa using h

/-- Claim C4: the credential check and the image check of the POST
handler both run before any candidate is attempted: with no truthy
credential the request fails with HTTP 500 `Missing GEMINI_API_KEY` and
an empty attempt trace, and with a credential but a falsy (absent or
empty) image it fails with HTTP 400 `Image not provided` and an empty
attempt trace. -/
theorem post_guards_precede_attempts (env : Env) (req : RouteRequest)
    (outcomes : List AttemptOutcome) :
    (strTruthy (apiKey env) = false →
       POST env req outcomes = (RouteResult.error 500 "Missing GEMINI_API_KEY", [])) ∧
    (strTruthy (apiKey env) = true → strTruthy req.image = false →
       POST env req outcomes = (RouteResult.error 400 "Image not provided", [])) := by
  constructor
  · intro h
    simp [POST, h]
  · intro hk hi
    simp [POST, hk, hi]

/-- Witness for C4: an environment with no credential, then one with a
credential but an empty image string. -/
theorem post_guards_precede_attempts_witness :
    POST ⟨none, none⟩ ⟨some "img", SymptomsField.absent, none⟩ []
      = (RouteResult.error 500 "Missing GEMINI_API_KEY", []) ∧
    POST ⟨some "key", none⟩ ⟨some "", SymptomsField.absent, none⟩ []
      = (RouteResult.error 400 "Image not provided", []) :=
  ⟨(post_guards_precede_attempts ⟨none, none⟩
      ⟨some "img", SymptomsField.absent, none⟩ []).1 (by decide),
   (post_guards_precede_attempts ⟨some "key", none⟩
      ⟨some "", SymptomsField.absent, none⟩ []).2 (by decide) (by decide)⟩

/-- Claim C7: once the guards pass, the handler builds the payload once
— every attempt in the trace carries that same payload — and the
payload's single prompt part interpolates the classification label
(`unknown` when `visionAnalysis` is absent) and the symptom text
(`not provided` when `symptoms` is absent) into the fixed template. -/
theorem prompt_built_once_per_request (env : Env) (req : RouteRequest)
    (outcomes : List AttemptOutcome)
    (hk : strTruthy (apiKey env) = true) (hi : strTruthy req.image = true) :
    (∀ a ∈ (POST env req outcomes).2, a.2 = mkPayload (req.image.getD "") req) ∧
    mkPayload (req.image.getD "") req
      = ⟨[⟨[Part.text (promptText (labelText req.visionAnalysis)
              (symptomsText req.symptoms)),
            Part.inline ⟨mimeTypeOf (req.image.getD ""),
              base64DataOf (req.image.getD "")⟩]⟩]⟩ ∧
    labelText none = "unknown" ∧
    symptomsText SymptomsField.absent = "not provided" := by
  refine ⟨?_, rfl, rfl, rfl⟩
  intro a ha
  have hpost : POST env req outcomes
      = tryModels (mkPayload (req.image.getD "") req)
          (MODELS_TO_TRY.zip outcomes) "Unknown error" := by
    simp [POST, hk, hi]
  rw [hpost] at ha
  exact tryModels_trace_payload _ _ _ a ha

/-- Witness for C7: a request with no classification result and no
symptom field yields the prompt with both defaults, and the single
attempt of a one-outcome oracle carries that payload. -/
theorem prompt_built_once_per_request_witness :
    mkPayload "img" ⟨some "img", SymptomsField.absent, none⟩
      = ⟨[⟨[Part.text (promptText "unknown" "not provided"),
            Part.inline ⟨mimeTypeOf "img", base64DataOf "img"⟩]⟩]⟩ := by
  have h := prompt_built_once_per_request ⟨some "key", none⟩
      ⟨some "img", SymptomsField.absent, none⟩ [] (by decide) (by decide)
  have h2 := h.2.1
  rw [h.2.2.1, h.2.2.2] at h2
  simpa using h2

/-- Claim C10: the `not provided` default never applies to an array
`symptoms` field: every array is truthy, so it is interpolated as its
comma-joined string form — the empty array as the empty string (the
prompt's `User symptoms:` line is then empty after trimming) — and the
request is not rejected: the handler proceeds to the candidate loop. -/
theorem symptoms_array_interpolated (env : Env) (req : RouteRequest)
    (outcomes : List AttemptOutcome) (xs : List String)
    (hk : strTruthy (apiKey env) = true) (hi : strTruthy req.image = true)
    (hs : req.symptoms = SymptomsField.arr xs) :
    SymptomsField.truthy req.symptoms = true ∧
    symptomsText req.symptoms = String.intercalate "," xs ∧
    POST env req outcomes
      = tryModels (mkPayload (req.image.getD "") req)
          (MODELS_TO_TRY.zip outcomes) "Unknown error" ∧
    (jsSplit '\n'
        (promptText "unknown" (symptomsText (SymptomsField.arr ([] : List String))))).getLastD ""
      = "User symptoms:" ∧
    (jsSplit '\n'
        (promptText "unknown"
          (symptomsText (SymptomsField.arr ["itching", "redness"])))).getLastD ""
      = "User symptoms: itching,redness" := by
  obtain ⟨img, sym, va⟩ := req
  simp only at hs
  subst hs
  exact ⟨rfl, rfl, by simp [POST, hk, hi], by decide, by decide⟩

/-- Witness for C10 at a concrete request whose symptoms field is the
array `["itching", "redness"]`. -/
theorem symptoms_array_interpolated_witness :
    symptomsText (SymptomsField.arr ["itching", "redness"]) = "itching,redness" ∧
    POST ⟨some "key", none⟩ ⟨some "img", SymptomsField.arr ["itching", "redness"], none⟩ []
      = tryModels
          (mkPayload "img" ⟨some "img", SymptomsField.arr ["itching", "redness"], none⟩)
          (MODELS_TO_TRY.zip []) "Unknown error" := by
  have h := symptoms_array_interpolated ⟨some "key", none⟩
      ⟨some "img", SymptomsField.arr ["itching", "redness"], none⟩ []
      ["itching", "redness"] (by decide) (by decide) rfl
  exact ⟨h.2.1.trans (by decide), by simpa using h.2.2.1⟩

/-! ## Theorems about the session wizard -/

/-- A concrete classification result for instantiating the wizard
theorems. -/
def moleResult : VisionResult := ⟨"mole", [("mole", 9 / 10)]⟩

/-- A concrete pre-submission state: scan started, an image captured
(which starts the classification call), symptoms typed, classification
still unresolved. -/
def preSubmitState : AppState :=
  run initialState
    [Event.startScan, Event.capture "data:image/png;base64,AAAA",
     Event.editSymptoms "itching"]

/-- Claim C2 (refuted, code bug): the source checks no generation stamp
before writing a late classification result.  After capturing an image
(which leaves a classification call outstanding) and resetting, the
session is fresh and the call is still pending; when the call then
resolves, its result lands in the post-reset session's
`vision_result` field instead of being suppressed. -/
theorem stale_vision_write_corrupts_reset_session :
    (run initialState
        [Event.startScan, Event.capture "data:image/png;base64,AAAA",
         Event.reset]).scanSession = initialSession ∧
    (run initialState
        [Event.startScan, Event.capture "data:image/png;base64,AAAA",
         Event.reset]).pendingVision = true ∧
    (run initialState
        [Event.startScan, Event.capture "data:image/png;base64,AAAA",
         Event.reset, Event.visionResolve moleResult]).scanSession.vision_result
      = some moleResult := by
  refine ⟨rfl, rfl, rfl⟩

/-- Claim C5: the `SymptomEntry → Results` guard: an input of only
whitespace and commas parses to no symptoms, so submission alerts
`Please enter at least one symptom` and leaves the state unchanged,
while `itching, redness` parses to `["itching", "redness"]` and the
submission writes exactly that list into the session and navigates to
the results screen. -/
theorem symptom_guard_behavior (st : AppState) :
    (parseSymptoms " , , " = [] ∧
     (st.symptomsInput = " , , " →
        step st Event.submit
          = (st, [Effect.alertMsg "Please enter at least one symptom"]))) ∧
    (parseSymptoms "itching, redness" = ["itching", "redness"] ∧
     (st.symptomsInput = "itching, redness" →
        (step st Event.submit).1.scanSession.symptoms = ["itching", "redness"] ∧
        (step st Event.submit).1.currentScreen = Screen.results)) := by
  have h1 : parseSymptoms " , , " = [] := by decide
  have h2 : parseSymptoms "itching, redness" = ["itching", "redness"] := by decide
  refine ⟨⟨h1, ?_⟩, ⟨h2, ?_⟩⟩
  · intro h
    simp [step, proceedToResults, h, h1]
  · intro h
    simp [step, proceedToResults, h, h2]

/-- Witness for C5 at the initial state with each of the two inputs. -/
theorem symptom_guard_behavior_witness :
    step { initialState with symptomsInput := " , , " } Event.submit
      = ({ initialState with symptomsInput := " , , " },
         [Effect.alertMsg "Please enter at least one symptom"]) ∧
    (step { initialState with symptomsInput := "itching, redness" }
        Event.submit).1.scanSession.symptoms = ["itching", "redness"] :=
  ⟨(symptom_guard_behavior
      { initialState with symptomsInput := " , , " }).1.2 rfl,
   ((symptom_guard_behavior
      { initialState with symptomsInput := "itching, redness" }).2.2 rfl).1⟩

/-- Claim C6: a successful submission navigates to the results screen
in the same step, touching neither the outstanding classification call
nor waiting for it (`pendingVision` is untouched and unconsulted), and
emits the report request deferred by 500 ms whose body snapshots the
session's classification result as of submission — in particular the
body carries `visionAnalysis = none` whenever the classification has
not resolved by then. -/
theorem submit_navigates_with_snapshot (st : AppState)
    (hne : parseSymptoms st.symptomsInput ≠ []) :
    (step st Event.submit).1.currentScreen = Screen.results ∧
    (step st Event.submit).1.pendingVision = st.pendingVision ∧
    (step st Event.submit).2
      = [Effect.issueReport 500
          { image := st.capturedImage,
            symptoms := parseSymptoms st.symptomsInput,
            visionAnalysis := st.scanSession.vision_result }] ∧
    (st.scanSession.vision_result = none →
      (step st Event.submit).2
        = [Effect.issueReport 500
            { image := st.capturedImage,
              symptoms := parseSymptoms st.symptomsInput,
              visionAnalysis := none }]) := by
  refine ⟨?_, ?_, ?_, ?_⟩ <;>
    simp [step, proceedToResults, hne]

/-- Witness for C6: submitting at the concrete pre-submission state
(classification still outstanding) navigates to results and issues the
deferred request with a `none` classification snapshot. -/
theorem submit_navigates_with_snapshot_witness :
    (step preSubmitState Event.submit).1.currentScreen = Screen.results ∧
    (step preSubmitState Event.submit).2
      = [Effect.issueReport 500
          ⟨some "data:image/png;base64,AAAA", ["itching"], none⟩] := by
  have h := submit_navigates_with_snapshot preSubmitState (by decide)
  exact ⟨h.1, (h.2.2.2 (by decide)).trans (by decide)⟩

/-- Claim C8: a failed report generation (a thrown fetch or a non-ok
response) writes only the session's `error` field; the symptoms, the
captured image and every other piece of state are unchanged, so the
failure is non-destructive. -/
theorem report_failure_preserves_session (st : AppState) :
    (∀ m, step st (Event.reportResolve (ReportOutcome.networkError m))
       = ({ st with scanSession := { st.scanSession with error := some m } }, [])) ∧
    (∀ c, step st (Event.reportResolve (ReportOutcome.httpError c))
       = ({ st with scanSession :=
              { st.scanSession with error := some ("API Error: " ++ toString c) } },
          [])) :=
  ⟨fun _ => rfl, fun _ => rfl⟩

/-- Helper: no single wizard step changes a zero `risk_score`. -/
theorem step_preserves_risk_score (st : AppState) (e : Event)
    (h : st.scanSession.risk_score = 0) :
    (step st e).1.scanSession.risk_score = 0 := by
  cases e with
  | startScan => simpa using h
  | capture image => simpa [step, performAnalysis] using h
  | visionResolve r => simpa [step, visionResolve] using h
  | visionFail => simpa [step, visionFail] using h
  | editSymptoms text => simpa using h
  | submit =>
      simp only [step, proceedToResults]
      split <;> simpa using h
  | reportResolve o =>
      cases o with
      | networkError m => simpa [step, reportResolve] using h
      | httpError c => simpa [step, reportResolve] using h
      | okBody r =>
          simp only [step, reportResolve]
          split <;> simpa using h
  | reset => simp [step, resetSession, initialSession]

/-- Claim C9: the session's `risk_score` always equals its initial
value `0`: it starts at `0` and no sequence of wizard events (capture,
classification write, symptom submission, report write, reset) ever
changes it. -/
theorem risk_score_never_computed (evts : List Event) :
    initialSession.risk_score = 0 ∧
    (run initialState evts).scanSession.risk_score = 0 := by
  refine ⟨rfl, ?_⟩
  suffices h : ∀ st : AppState, st.scanSession.risk_score = 0 →
      (run st evts).scanSession.risk_score = 0 from h initialState rfl
  induction evts with
  | nil =>
      intro st h
      simpa [run] using h
  | cons e es ih =>
      intro st h
      simpa [run] using ih _ (step_preserves_risk_score st e h)

end Dermavision
